import Mathlib

/-!
Verification of the camera-capture controller
(`src/camera_capture/camera_capture/camera_capture.py`).

The embedding models the `CameraPublisher` node as a state record and the
three entry points (`start_livestream_callback`, `timer_callback`,
`capture_snapshot_callback`) plus `prevent_overflood_image` as functions on
that state.  OpenCV semantics used by the model:

* `cv2.VideoCapture.set(...)` on a capture handle that is not opened is a
  no-op (it returns `False` and changes nothing); on an opened handle it
  updates the requested property.  The controller never checks the return
  value, matching the source.
* `cv2.VideoCapture.read()` returns a pair `(ret, frame)`; on failure the
  frame is `None`.  The source ignores `ret`; `CvBridge.cv2_to_imgmsg(None)`
  raises, which the model renders as `Except.error` (the exception
  propagates out of the callback, so statements after the raise point do
  not execute).
* In `start_livestream_callback` the Python local variable `timer` is
  freshly unbound on every invocation, so the `timer.cancel()` in the stop
  branch always raises `UnboundLocalError`, which the handler catches and
  logs; the timer created by an earlier invocation is never cancelled.
  A ROS timer created by `create_timer` stays alive (owned by the node)
  even though the local binding is dropped, so the model counts the number
  of alive timers.

Frames carry no information relevant to the claims, so a frame is `Unit`
and a read result is `Option Unit` (`none` = failed read / `None` frame).
-/

/-- Configuration values read once from `camera_capture_settings.json`. -/
structure Settings where
  capture_height_livestream : Nat
  capture_width_livestream : Nat
  capture_height_snapshot : Nat
  capture_width_snapshot : Nat
  image_location : String
deriving DecidableEq, Repr

/-- The `cv2.VideoCapture` handle: whether the device opened, and the
currently requested frame size. -/
structure CapState where
  isOpened : Bool
  height : Nat
  width : Nat
deriving DecidableEq, Repr

/-- `cap.set(cv2.CAP_PROP_FRAME_HEIGHT, h)`: updates the property only when
the device is opened, otherwise does nothing (OpenCV returns `False`). -/
def capSetHeight (h : Nat) (c : CapState) : CapState :=
  if c.isOpened then { c with height := h } else c

/-- `cap.set(cv2.CAP_PROP_FRAME_WIDTH, w)`: same no-op-when-closed
semantics as `capSetHeight`. -/
def capSetWidth (w : Nat) (c : CapState) : CapState :=
  if c.isOpened then { c with width := w } else c

/-- Observable state of the `CameraPublisher` node together with its
externally visible effects: the files on disk, an append-only journal of
`cv2.imwrite` calls, the number of livestream messages published, the
sequence identifiers (`header.frame_id`, stringified from the counter in
the source) of published snapshot messages, the number of alive ROS
timers, and the log. -/
structure NodeState where
  cap : CapState
  image_counter : Nat
  activeTimers : Nat
  disk : List String
  writes : List String
  livestreamPubs : Nat
  snapshotPubs : List Nat
  logs : List String
deriving DecidableEq, Repr

/-- Append one log line (`self.get_logger().info/debug/error`). -/
def addLog (st : NodeState) (line : String) : NodeState :=
  { st with logs := st.logs ++ [line] }

/-- The filename built by the source for snapshot `n`:
`{image_location}/image{n}.jpg`. -/
def imageFilename (loc : String) (n : Nat) : String :=
  loc ++ "/image" ++ toString n ++ ".jpg"

/-- `cv2.imwrite(path, frame)`: the file appears on disk (an existing file
with that path is overwritten) and the call is journalled. -/
def diskWrite (path : String) (st : NodeState) : NodeState :=
  { st with
    disk := if path ∈ st.disk then st.disk else st.disk ++ [path]
    writes := st.writes ++ [path] }

/-- `CameraPublisher.__init__`: the capture handle is opened on the
gstreamer pipeline (raw 1920x1080), `image_counter` starts at 0, no timer
exists, nothing has been published or written.  `available` records
whether `cv2.VideoCapture` managed to open the device. -/
def initState (available : Bool) : NodeState :=
  { cap := { isOpened := available, height := 1080, width := 1920 }
    image_counter := 0
    activeTimers := 0
    disk := []
    writes := []
    livestreamPubs := 0
    snapshotPubs := []
    logs := [] }

/-- The three-way branch of `start_livestream_callback` on the payload:
`if topic_msg.data: ... elif not topic_msg.data: ... else: ...`. -/
inductive LsBranch where
  | start
  | stop
  | alreadyStopped
deriving DecidableEq, Repr

/-- Which branch the payload selects, mirroring the source's
`if data / elif not data / else` chain literally. -/
def livestream_branch (data : Bool) : LsBranch :=
  if data then LsBranch.start
  else if !data then LsBranch.stop
  else LsBranch.alreadyStopped

/-- `start_livestream_callback` (lines 81-116).  Sets the livestream
resolution (before any availability check), logs, and if the device is
opened dispatches on the payload: `true` creates a new timer; `false`
attempts `timer.cancel()` on the unbound local `timer`, which raises
`UnboundLocalError`, is caught, and only logs — no timer is cancelled. -/
def start_livestream_callback (s : Settings) (data : Bool) (st : NodeState) :
    NodeState :=
  let st := { st with
    cap := capSetWidth s.capture_width_livestream
      (capSetHeight s.capture_height_livestream st.cap) }
  let st := addLog st "message received on topic livestream"
  if st.cap.isOpened then
    let st := addLog st "camera is available"
    match livestream_branch data with
    | LsBranch.start =>
        let st := addLog st "starting livestream"
        { st with activeTimers := st.activeTimers + 1 }
    | LsBranch.stop =>
        let st := addLog st "stopping livestream"
        addLog st "timer was is not defined)"
    | LsBranch.alreadyStopped =>
        addLog st "can't stop livestream because livestream is already stopped"
  else
    addLog st "camera not available"

/-- The error raised by `CvBridge.cv2_to_imgmsg` when handed the `None`
frame produced by a failed `cap.read()`. -/
def noneFrameError : String := "cv2_to_imgmsg: input is not a numpy array"

/-- `timer_callback` (lines 118-122).  Reads a frame; the return flag
`ret` is ignored.  A successful read is converted and published on the
livestream topic; a failed read hands `None` to `cv2_to_imgmsg`, which
raises. -/
def timer_callback (readResult : Option Unit) (st : NodeState) :
    Except String NodeState :=
  match readResult with
  | some _ => Except.ok { st with livestreamPubs := st.livestreamPubs + 1 }
  | none => Except.error noneFrameError

/-- `capture_snapshot_callback` (lines 124-156).  Logs, sets the snapshot
resolution, and — without ever inspecting the payload — if the device is
opened: reads a frame (ignoring `ret`), converts it (raising on `None`),
stamps `header.frame_id` with the counter, writes
`image{image_counter}.jpg`, publishes, increments the counter, and runs
`prevent_overflood_image` on the new counter.  Finally (unless an
exception propagated) the resolution is set back to the livestream one. -/
def prevent_overflood_image (loc : String) (img_number : Nat)
    (disk : List String) : List String :=
  if img_number > 4 then
    let item_to_delete := imageFilename loc (img_number - 5)
    if item_to_delete ∈ disk then disk.erase item_to_delete else disk
  else
    disk

def capture_snapshot_callback (s : Settings) (data : Bool)
    (readResult : Option Unit) (st : NodeState) : Except String NodeState :=
  let st := addLog st "message received on topic snapshot"
  let st := { st with
    cap := capSetWidth s.capture_width_snapshot
      (capSetHeight s.capture_height_snapshot st.cap) }
  let inner : Except String NodeState :=
    if st.cap.isOpened then
      match readResult with
      | some _ =>
          let c := st.image_counter
          let st := diskWrite (imageFilename s.image_location c) st
          let st := addLog st ("image saved at image" ++ toString c ++ ".jpg")
          let st := { st with snapshotPubs := st.snapshotPubs ++ [c] }
          let st := { st with image_counter := c + 1 }
          Except.ok { st with
            disk := prevent_overflood_image s.image_location
              st.image_counter st.disk }
      | none => Except.error noneFrameError
    else
      Except.ok (addLog st "camera not available")
  match inner with
  | Except.ok st =>
      Except.ok { st with
        cap := capSetWidth s.capture_width_livestream
          (capSetHeight s.capture_height_livestream st.cap) }
  | Except.error e => Except.error e

/-- One externally triggered entry into the node: a livestream-state
message, a snapshot-trigger message (with the outcome the device would
give for its read), or a periodic timer tick (with its read outcome). -/
inductive Event where
  | lsMsg (data : Bool)
  | snapMsg (data : Bool) (readResult : Option Unit)
  | tick (readResult : Option Unit)
deriving DecidableEq, Repr

/-- Whether an event is a snapshot-trigger message. -/
def Event.isSnap : Event → Bool
  | Event.snapMsg _ _ => true
  | _ => false

/-- Single-threaded dispatch of one event.  A tick is delivered only when
at least one timer is alive; with no alive timer no tick fires. -/
def step (s : Settings) (st : NodeState) : Event → Except String NodeState
  | Event.lsMsg d => Except.ok (start_livestream_callback s d st)
  | Event.snapMsg d r => capture_snapshot_callback s d r st
  | Event.tick r =>
      if st.activeTimers > 0 then timer_callback r st else Except.ok st

/-- Process a sequence of events in arrival order; an uncaught exception
aborts the run. -/
def run (s : Settings) (st : NodeState) : List Event → Except String NodeState
  | [] => Except.ok st
  | e :: es =>
      match step s st e with
      | Except.ok st' => run s st' es
      | Except.error err => Except.error err

/-- A concrete configuration used to evaluate the model on closed inputs. -/
def sampleSettings : Settings :=
  { capture_height_livestream := 720
    capture_width_livestream := 1280
    capture_height_snapshot := 2464
    capture_width_snapshot := 3264
    image_location := "/images" }

/-! ### Helper lemmas about the capture handle -/

theorem capSetHeight_isOpened (n : Nat) (c : CapState) :
    (capSetHeight n c).isOpened = c.isOpened := by
  unfold capSetHeight
  split <;> rfl

theorem capSetWidth_isOpened (n : Nat) (c : CapState) :
    (capSetWidth n c).isOpened = c.isOpened := by
  unfold capSetWidth
  split <;> rfl

theorem capSetHeight_closed (n : Nat) (c : CapState) (h : c.isOpened = false) :
    capSetHeight n c = c := by
  unfold capSetHeight
  simp [h]

theorem capSetWidth_closed (n : Nat) (c : CapState) (h : c.isOpened = false) :
    capSetWidth n c = c := by
  unfold capSetWidth
  simp [h]

/-! ### Characterization of the callbacks -/

theorem lscb_image_counter (s : Settings) (d : Bool) (st : NodeState) :
    (start_livestream_callback s d st).image_counter = st.image_counter := by
  unfold start_livestream_callback
  cases d <;> simp [livestream_branch, addLog] <;> split <;> rfl

theorem cscb_closed (s : Settings) (d : Bool) (r : Option Unit) (st : NodeState)
    (h : st.cap.isOpened = false) :
    capture_snapshot_callback s d r st = Except.ok
      { st with logs := st.logs ++
          ["message received on topic snapshot", "camera not available"] } := by
  unfold capture_snapshot_callback
  simp [addLog, capSetHeight_closed, capSetWidth_closed, h]

theorem cscb_open_none (s : Settings) (d : Bool) (st : NodeState)
    (h : st.cap.isOpened = true) :
    capture_snapshot_callback s d none st = Except.error noneFrameError := by
  unfold capture_snapshot_callback
  simp [addLog, capSetHeight, capSetWidth, h]

theorem cscb_open_some (s : Settings) (d : Bool) (st : NodeState)
    (h : st.cap.isOpened = true) :
    capture_snapshot_callback s d (some ()) st = Except.ok
      { cap := { isOpened := true, height := s.capture_height_livestream,
                 width := s.capture_width_livestream }
        image_counter := st.image_counter + 1
        activeTimers := st.activeTimers
        disk := prevent_overflood_image s.image_location (st.image_counter + 1)
          (if imageFilename s.image_location st.image_counter ∈ st.disk
           then st.disk
           else st.disk ++ [imageFilename s.image_location st.image_counter])
        writes := st.writes ++ [imageFilename s.image_location st.image_counter]
        livestreamPubs := st.livestreamPubs
        snapshotPubs := st.snapshotPubs ++ [st.image_counter]
        logs := st.logs ++ ["message received on topic snapshot",
          "image saved at image" ++ toString st.image_counter ++ ".jpg"] } := by
  unfold capture_snapshot_callback
  simp [addLog, diskWrite, capSetHeight, capSetWidth, h]

theorem snap_counter_cases (s : Settings) (d : Bool) (r : Option Unit)
    (st st' : NodeState)
    (h : capture_snapshot_callback s d r st = Except.ok st') :
    (st'.image_counter = st.image_counter + 1 ∧ st.cap.isOpened = true
      ∧ r = some ())
    ∨ st'.image_counter = st.image_counter := by
  by_cases ho : st.cap.isOpened = true
  · cases r with
    | some u =>
        cases u
        rw [cscb_open_some s d st ho] at h
        left
        injection h with h
        exact ⟨by rw [← h], ho, rfl⟩
    | none =>
        rw [cscb_open_none s d st ho] at h
        exact (Except.noConfusion h)
  · have hc : st.cap.isOpened = false := by simpa using ho
    rw [cscb_closed s d r st hc] at h
    right
    injection h with h
    rw [← h]

theorem step_counter_mono (s : Settings) (st : NodeState) (e : Event)
    (st' : NodeState) (h : step s st e = Except.ok st') :
    st.image_counter ≤ st'.image_counter := by
  cases e with
  | lsMsg d =>
      simp only [step] at h
      injection h with h
      rw [← h, lscb_image_counter]
  | snapMsg d r =>
      rcases snap_counter_cases s d r st st' h with ⟨h1, _, _⟩ | h1 <;> omega
  | tick r =>
      simp only [step] at h
      split at h
      · cases r with
        | some u =>
            simp only [timer_callback] at h
            injection h with h
            rw [← h]
        | none => exact (Except.noConfusion h)
      · injection h with h
        rw [← h]

theorem step_counter_eq_of_not_snap (s : Settings) (st : NodeState) (e : Event)
    (st' : NodeState) (hsnap : e.isSnap = false)
    (h : step s st e = Except.ok st') :
    st'.image_counter = st.image_counter := by
  cases e with
  | lsMsg d =>
      simp only [step] at h
      injection h with h
      rw [← h, lscb_image_counter]
  | snapMsg d r => simp [Event.isSnap] at hsnap
  | tick r =>
      simp only [step] at h
      split at h
      · cases r with
        | some u =>
            simp only [timer_callback] at h
            injection h with h
            rw [← h]
        | none => exact (Except.noConfusion h)
      · injection h with h
        rw [← h]

theorem run_counter_mono (s : Settings) (st : NodeState) (es : List Event)
    (st' : NodeState) (h : run s st es = Except.ok st') :
    st.image_counter ≤ st'.image_counter := by
  induction es generalizing st with
  | nil =>
      simp only [run] at h
      injection h with h
      rw [h]
  | cons e es ih =>
      simp only [run] at h
      cases hstep : step s st e with
      | error err => rw [hstep] at h; exact (Except.noConfusion h)
      | ok stm =>
          rw [hstep] at h
          exact le_trans (step_counter_mono s st e stm hstep) (ih stm h)

/-! ### Claim theorems -/

/-- C1: the retention window does NOT keep 5 files.  `prevent_overflood_image`
evicts whenever the counter exceeds 4, so the capture that raises the counter
from 4 to 5 already deletes `image0.jpg`, and after 6 successful captures only
4 files remain on disk (`image2.jpg` .. `image5.jpg`), not 5 — contradicting
both the claim and the function's own docstring ("only 5 images"). -/
theorem retention_window_keeps_four :
    prevent_overflood_image "/images" 5
        ["/images/image0.jpg", "/images/image1.jpg", "/images/image2.jpg",
         "/images/image3.jpg", "/images/image4.jpg"]
      = ["/images/image1.jpg", "/images/image2.jpg", "/images/image3.jpg",
         "/images/image4.jpg"]
    ∧ Except.map NodeState.disk
        (run sampleSettings (initState true)
          (List.replicate 6 (Event.snapMsg true (some ()))))
      = Except.ok ["/images/image2.jpg", "/images/image3.jpg",
          "/images/image4.jpg", "/images/image5.jpg"] := by
  constructor
  · rfl
  · rfl

/-- C2: stopping the livestream does not cancel the periodic task.  The local
variable `timer` is unbound in the stop call, `timer.cancel()` raises
`UnboundLocalError` (caught and logged), and the timer stays alive: after
start, 3 ticks, stop, 1 tick, the node has published 4 livestream messages
(one of them after the stop) and still has 1 alive timer. -/
theorem stop_leaves_timer_alive :
    Except.map (fun st => (st.livestreamPubs, st.activeTimers))
        (run sampleSettings (initState true)
          [Event.lsMsg true, Event.tick (some ()), Event.tick (some ()),
           Event.tick (some ()), Event.lsMsg false, Event.tick (some ())])
      = Except.ok (4, 1) := by
  rfl

/-- C3: a second start trigger while the livestream is already running
creates a second concurrent periodic task: after two `true` livestream
messages the node owns 2 alive timers, violating the single-task invariant. -/
theorem double_start_two_timers :
    Except.map NodeState.activeTimers
        (run sampleSettings (initState true)
          [Event.lsMsg true, Event.lsMsg true])
      = Except.ok 2 := by
  rfl

/-- C4: a snapshot trigger with payload `false` is NOT a no-op.  The handler
never inspects the payload: with the device open, a `false` message still
writes `image0.jpg`, publishes a snapshot message with sequence identifier 0,
increments the counter to 1, and leaves the handle at the livestream
resolution (1280x720) instead of its prior one (1920x1080). -/
theorem false_trigger_still_captures :
    Except.map (fun st => (st.image_counter, st.writes, st.snapshotPubs,
          st.cap.width, st.cap.height))
        (capture_snapshot_callback sampleSettings false (some ())
          (initState true))
      = Except.ok (1, ["/images/image0.jpg"], [0], 1280, 720) := by
  rfl

/-- C9: the final `else` branch of the livestream-state handler is
unreachable: every boolean payload selects either the start branch or the
stop branch of `livestream_branch`, never `alreadyStopped`. -/
theorem livestream_branch_total :
    ∀ b : Bool, livestream_branch b = LsBranch.start
      ∨ livestream_branch b = LsBranch.stop := by
  decide

/-- C5 (amended): on a periodic tick the handler ignores the read success
flag.  A successful read publishes exactly one frame on the livestream output
(no sequence annotation exists on that path) and changes nothing else; a
failed read hands the `None` frame to `cv2_to_imgmsg`, which raises, so the
tick aborts with an exception instead of silently skipping publication. -/
theorem livestream_tick_effect (s : Settings) (st : NodeState)
    (h : 0 < st.activeTimers) :
    step s st (Event.tick (some ()))
        = Except.ok { st with livestreamPubs := st.livestreamPubs + 1 }
    ∧ step s st (Event.tick none) = Except.error noneFrameError := by
  constructor <;> simp [step, timer_callback, h]

/-- C5 counterexample: with one alive timer, a tick whose frame read fails
does not leave the state unchanged without incident (as the claim states);
it raises out of the callback. -/
theorem failed_read_tick_errors :
    step sampleSettings { initState true with activeTimers := 1 }
        (Event.tick none)
      = Except.error noneFrameError
    ∧ step sampleSettings { initState true with activeTimers := 1 }
        (Event.tick none)
      ≠ Except.ok { initState true with activeTimers := 1 } := by
  constructor
  · rfl
  · intro hcontra
    have h2 : Except.error noneFrameError
        = Except.ok { initState true with activeTimers := 1 } := hcontra
    exact Except.noConfusion h2

/-- C5 witness: a state with one alive timer satisfies the hypothesis, and
a successful tick from it publishes exactly one livestream frame. -/
theorem livestream_tick_effect_witness :
    step sampleSettings { initState true with activeTimers := 1 }
        (Event.tick (some ()))
      = Except.ok { initState true with
          activeTimers := 1
          livestreamPubs := 1 }
    ∧ step sampleSettings { initState true with activeTimers := 1 }
        (Event.tick none)
      = Except.error noneFrameError :=
  livestream_tick_effect sampleSettings
    { initState true with activeTimers := 1 } (by decide)

/-- C6: when the device is unavailable, a livestream-state trigger changes
nothing but the log: the resolution-set calls are no-ops on a closed handle,
no timer is created, and every other component of the state is untouched. -/
theorem unavailable_livestream_trigger_logs_only (s : Settings) (d : Bool)
    (st : NodeState) (h : st.cap.isOpened = false) :
    start_livestream_callback s d st
      = { st with logs := st.logs ++
          ["message received on topic livestream", "camera not available"] } := by
  unfold start_livestream_callback
  simp [addLog, capSetHeight_closed, capSetWidth_closed, h]

/-- C6 witness: from the initial state with an unopened device, a start
trigger only appends the two log lines. -/
theorem unavailable_livestream_trigger_logs_only_witness :
    start_livestream_callback sampleSettings true (initState false)
      = { initState false with logs :=
          ["message received on topic livestream", "camera not available"] } :=
  unavailable_livestream_trigger_logs_only sampleSettings true
    (initState false) rfl

/-- C7: a snapshot trigger while the device is unavailable aborts atomically:
the handler returns normally having only appended two log lines — no file is
written, no snapshot message is published, and the counter is unchanged. -/
theorem unavailable_snapshot_trigger_aborts (s : Settings) (d : Bool)
    (r : Option Unit) (st : NodeState) (h : st.cap.isOpened = false) :
    capture_snapshot_callback s d r st = Except.ok
      { st with logs := st.logs ++
          ["message received on topic snapshot", "camera not available"] } :=
  cscb_closed s d r st h

/-- C7 witness: from the initial state with an unopened device, a snapshot
trigger only appends the two log lines. -/
theorem unavailable_snapshot_trigger_aborts_witness :
    capture_snapshot_callback sampleSettings true (some ()) (initState false)
      = Except.ok { initState false with logs :=
          ["message received on topic snapshot", "camera not available"] } :=
  unavailable_snapshot_trigger_aborts sampleSettings true (some ())
    (initState false) rfl

/-- C8: a successful snapshot capture with pre-capture counter `C` journals
an `imwrite` of `{image_location}/image{C}.jpg`, publishes a snapshot
message whose sequence identifier is `C`, and leaves the counter at `C + 1`;
the counter starts at 0 and never decreases over any run of the process. -/
theorem snapshot_success_spec :
    (∀ (s : Settings) (d : Bool) (st : NodeState), st.cap.isOpened = true →
      Except.map (fun st' => (st'.writes, st'.snapshotPubs, st'.image_counter))
          (capture_snapshot_callback s d (some ()) st)
        = Except.ok
            (st.writes ++ [imageFilename s.image_location st.image_counter],
             st.snapshotPubs ++ [st.image_counter], st.image_counter + 1))
    ∧ (∀ available : Bool, (initState available).image_counter = 0)
    ∧ (∀ (s : Settings) (st : NodeState) (es : List Event) (st' : NodeState),
        run s st es = Except.ok st' →
        st.image_counter ≤ st'.image_counter) := by
  refine ⟨?_, fun _ => rfl, run_counter_mono⟩
  intro s d st h
  rw [cscb_open_some s d st h]
  rfl

/-- C8 witness: from the initial state with an open device, one capture
journals `image0.jpg`, publishes sequence identifier 0 and sets the counter
to 1. -/
theorem snapshot_success_spec_witness :
    Except.map (fun st' => (st'.writes, st'.snapshotPubs, st'.image_counter))
        (capture_snapshot_callback sampleSettings true (some ())
          (initState true))
      = Except.ok (["/images/image0.jpg"], [0], 1) :=
  snapshot_success_spec.1 sampleSettings true (initState true) rfl

/-- C10: `image_counter` is mutated only by the successful-snapshot path:
livestream-state messages never change it, a timer tick never changes it, a
step that changes it must be a snapshot message delivered with the device
open and a successful read, and any run made of livestream messages and
ticks only leaves it where it started. -/
theorem counter_only_snapshot_mutates :
    (∀ (s : Settings) (d : Bool) (st : NodeState),
      (start_livestream_callback s d st).image_counter = st.image_counter)
    ∧ (∀ (r : Option Unit) (st st' : NodeState),
        timer_callback r st = Except.ok st' →
        st'.image_counter = st.image_counter)
    ∧ (∀ (s : Settings) (st : NodeState) (e : Event) (st' : NodeState),
        step s st e = Except.ok st' →
        st'.image_counter ≠ st.image_counter →
        ∃ d, e = Event.snapMsg d (some ()) ∧ st.cap.isOpened = true)
    ∧ (∀ (s : Settings) (st : NodeState) (es : List Event),
        (∀ e ∈ es, e.isSnap = false) →
        Except.map NodeState.image_counter (run s st es)
          = Except.map (fun _ => st.image_counter) (run s st es)) := by
  refine ⟨fun s d st => lscb_image_counter s d st, ?_, ?_, ?_⟩
  · intro r st st' h
    cases r with
    | some u =>
        simp only [timer_callback] at h
        injection h with h
        rw [← h]
    | none => exact (Except.noConfusion h)
  · intro s st e st' hstep hne
    cases e with
    | lsMsg d =>
        exact absurd (step_counter_eq_of_not_snap s st (Event.lsMsg d) st'
          rfl hstep) hne
    | tick r =>
        exact absurd (step_counter_eq_of_not_snap s st (Event.tick r) st'
          rfl hstep) hne
    | snapMsg d r =>
        rcases snap_counter_cases s d r st st' hstep with ⟨_, ho, hr⟩ | heq
        · exact ⟨d, by rw [hr], ho⟩
        · exact absurd heq hne
  · intro s st es hall
    induction es generalizing st with
    | nil => rfl
    | cons e es ih =>
        simp only [run]
        cases hstep : step s st e with
        | error err => rfl
        | ok stm =>
            have he : e.isSnap = false := hall e (List.mem_cons_self e es)
            have hmid : stm.image_counter = st.image_counter :=
              step_counter_eq_of_not_snap s st e stm he hstep
            have hrest := ih stm (fun e' he' => hall e' (List.mem_cons_of_mem e he'))
            rw [hrest, hmid]

/-- C10 witness: a run of a start message, a successful tick and a stop
message leaves the counter map equal to the constant-0 map (the counter is
untouched by livestream traffic and ticks). -/
theorem counter_only_snapshot_mutates_witness :
    Except.map NodeState.image_counter
        (run sampleSettings (initState true)
          [Event.lsMsg true, Event.tick (some ()), Event.lsMsg false])
      = Except.map (fun _ => 0)
        (run sampleSettings (initState true)
          [Event.lsMsg true, Event.tick (some ()), Event.lsMsg false]) :=
  counter_only_snapshot_mutates.2.2.2 sampleSettings (initState true)
    [Event.lsMsg true, Event.tick (some ()), Event.lsMsg false] (by decide)
